import Mathlib

/-
  Verification of the HWC3 ComposerCommandEngine
  (base/hwc3/ComposerCommandEngine.cpp).

  The engine is embedded shallowly: the hardware abstraction (mHal) and the
  resource cache (mResources) are oracles supplied as an environment; the
  per-batch writer (mWriter) and the hardware calls are recorded as an event
  trace; the only engine state threaded through dispatch is the per-display
  must-validate flag kept by the resource cache and the current command index.
-/

namespace Hwc3

/-- Status code HWC2_ERROR_NONE from hwcomposer2.h. -/
def HWC2_ERROR_NONE : Int := 0

/-- Status code HWC2_ERROR_HAS_CHANGES from hwcomposer2.h. -/
def HWC2_ERROR_HAS_CHANGES : Int := 5

/-- Exception code IComposerClient::EX_NOT_VALIDATED from the composer3 AIDL. -/
def EX_NOT_VALIDATED : Int := 7

/-- common::Point. -/
structure Point where
  x : Int
  y : Int
  deriving DecidableEq

/-- common::Rect, forwarded opaquely by the engine. -/
structure Rect where
  left : Int
  top : Int
  right : Int
  bottom : Int
  deriving DecidableEq

/-- common::FRect, forwarded opaquely by the engine. -/
structure FRect where
  left : Int
  top : Int
  right : Int
  bottom : Int
  deriving DecidableEq

/-- Buffer: cache slot, optional native handle, release fence.
    A native handle is modelled as an integer id; makeFromAidl is the
    identity on this model. -/
structure Buffer where
  slot : Int
  handle : Option Int
  fence : Int
  deriving DecidableEq

/-- ClientTarget: buffer plus dataspace and surface damage. -/
structure ClientTarget where
  buffer : Buffer
  dataspace : Int
  damage : List (Option Rect)
  deriving DecidableEq

/-- DisplayBrightness. -/
structure DisplayBrightness where
  brightness : Int
  deriving DecidableEq

/-- PlaneAlpha. -/
structure PlaneAlpha where
  alpha : Int
  deriving DecidableEq

/-- ZOrder. -/
structure ZOrder where
  z : Int
  deriving DecidableEq

/-- ParcelableBlendMode wrapper. -/
structure ParcelableBlendMode where
  blendMode : Int
  deriving DecidableEq

/-- ParcelableComposition wrapper. -/
structure ParcelableComposition where
  composition : Int
  deriving DecidableEq

/-- ParcelableDataspace wrapper. -/
structure ParcelableDataspace where
  dataspace : Int
  deriving DecidableEq

/-- ParcelableTransform wrapper. -/
structure ParcelableTransform where
  transform : Int
  deriving DecidableEq

/-- LayerCommand: target layer plus the optional per-layer fields, in the
    order they are declared by the AIDL structure. Opaque payloads (colors,
    metadata, blobs) are modelled as integers or lists of integers. -/
structure LayerCommand where
  layer : Int
  cursorPosition : Option Point := none
  buffer : Option Buffer := none
  damage : Option (List (Option Rect)) := none
  blendMode : Option ParcelableBlendMode := none
  color : Option Int := none
  composition : Option ParcelableComposition := none
  dataspace : Option ParcelableDataspace := none
  displayFrame : Option Rect := none
  planeAlpha : Option PlaneAlpha := none
  sidebandStream : Option Int := none
  sourceCrop : Option FRect := none
  transform : Option ParcelableTransform := none
  visibleRegion : Option (List (Option Rect)) := none
  z : Option ZOrder := none
  colorTransform : Option (List Int) := none
  perFrameMetadata : Option (List (Option Int)) := none
  perFrameMetadataBlob : Option (List (Option Int)) := none
  deriving DecidableEq

/-- DisplayCommand: target display, the layer commands, and the optional
    display-level fields. -/
structure DisplayCommand where
  display : Int
  layers : List LayerCommand := []
  colorTransformMatrix : Option (List Int) := none
  brightness : Option DisplayBrightness := none
  clientTarget : Option ClientTarget := none
  virtualDisplayOutputBuffer : Option Buffer := none
  expectedPresentTime : Option Int := none
  validateDisplay : Bool := false
  acceptDisplayChanges : Bool := false
  presentDisplay : Bool := false
  presentOrValidateDisplay : Bool := false
  deriving DecidableEq

/-- Out-parameters of IComposerHal::validateDisplay. -/
structure ValidateOut where
  err : Int
  changedLayers : List Int := []
  compositionTypes : List Int := []
  displayRequestMask : Int := 0
  requestedLayers : List Int := []
  requestMasks : List Int := []
  deriving DecidableEq

/-- Out-parameters of IComposerHal::presentDisplay: status, present fence
    (minus one denotes an invalid fence), affected layers and their release
    fences. -/
structure PresentOut where
  err : Int
  presentFence : Int := -1
  layers : List Int := []
  fences : List Int := []
  deriving DecidableEq

/-- The hardware abstraction (IComposerHal), modelled as a family of pure
    response functions: each call site of the engine reads the status code
    and out-parameters the hardware would return for those arguments. -/
structure Hal where
  setColorTransform : Int → List Int → Int
  setClientTarget : Int → Int → Int → Int → List (Option Rect) → Int
  setOutputBuffer : Int → Int → Int → Int
  setExpectedPresentTime : Int → Option Int → Int
  setDisplayBrightness : Int → Int → Int
  validateDisplay : Int → ValidateOut
  acceptDisplayChanges : Int → Int
  presentDisplay : Int → PresentOut
  getHasClientComposition : Int → Int × Bool
  setLayerCursorPosition : Int → Int → Int → Int → Int
  setLayerBuffer : Int → Int → Int → Int → Int
  setLayerSurfaceDamage : Int → Int → List (Option Rect) → Int
  setLayerBlendMode : Int → Int → Int → Int
  setLayerColor : Int → Int → Int → Int
  setLayerCompositionType : Int → Int → Int → Int
  setLayerDataspace : Int → Int → Int → Int
  setLayerDisplayFrame : Int → Int → Rect → Int
  setLayerPlaneAlpha : Int → Int → Int → Int
  setLayerSidebandStream : Int → Int → Int → Int
  setLayerSourceCrop : Int → Int → FRect → Int
  setLayerTransform : Int → Int → Int → Int
  setLayerVisibleRegion : Int → Int → List (Option Rect) → Int
  setLayerZOrder : Int → Int → Int → Int
  setLayerColorTransform : Int → Int → List Int → Int
  setLayerPerFrameMetadata : Int → Int → List (Option Int) → Int
  setLayerPerFrameMetadataBlobs : Int → Int → List (Option Int) → Int

/-- The resource cache (ComposerResources), modelled as pure resolver
    functions returning a status code and the resolved native handle.
    Arguments mirror the call sites: display, slot (and layer where the call
    site passes one), the use-cache flag and the optional incoming handle. -/
structure Resources where
  getDisplayClientTarget : Int → Int → Bool → Option Int → Int × Int
  getDisplayOutputBuffer : Int → Int → Bool → Option Int → Int × Int
  getLayerBuffer : Int → Int → Int → Bool → Option Int → Int × Int
  getLayerSidebandStream : Int → Int → Int → Int × Int

/-- The environment an execution runs against: hardware plus resource cache. -/
structure Env where
  hal : Hal
  res : Resources

/-- The per-display must-validate flag kept by the resource cache
    (mustValidateDisplay and setDisplayMustValidateState). -/
def MustValidate : Type := Int → Bool

/-- Protocol outcome published by setPresentOrValidateResult. -/
inductive PovResult where
  | Presented
  | Validated
  deriving DecidableEq

/-- Observable events of one execution: every hardware-abstraction call and
    every record written to the per-batch writer, in call order. -/
inductive Event where
  | halSetColorTransform (display : Int) (matrix : List Int)
  | halSetClientTarget (display : Int) (target : Int) (fence : Int)
      (dataspace : Int) (damage : List (Option Rect))
  | halSetOutputBuffer (display : Int) (buffer : Int) (fence : Int)
  | halSetExpectedPresentTime (display : Int) (time : Option Int)
  | halSetDisplayBrightness (display : Int) (brightness : Int)
  | halValidateDisplay (display : Int)
  | halAcceptDisplayChanges (display : Int)
  | halPresentDisplay (display : Int)
  | halGetHasClientComposition (display : Int)
  | halSetLayerCursorPosition (display layer : Int) (x y : Int)
  | halSetLayerBuffer (display layer : Int) (buffer fence : Int)
  | halSetLayerSurfaceDamage (display layer : Int) (damage : List (Option Rect))
  | halSetLayerBlendMode (display layer : Int) (blendMode : Int)
  | halSetLayerColor (display layer : Int) (color : Int)
  | halSetLayerCompositionType (display layer : Int) (composition : Int)
  | halSetLayerDataspace (display layer : Int) (dataspace : Int)
  | halSetLayerDisplayFrame (display layer : Int) (rect : Rect)
  | halSetLayerPlaneAlpha (display layer : Int) (alpha : Int)
  | halSetLayerSidebandStream (display layer : Int) (stream : Int)
  | halSetLayerSourceCrop (display layer : Int) (crop : FRect)
  | halSetLayerTransform (display layer : Int) (transform : Int)
  | halSetLayerVisibleRegion (display layer : Int) (region : List (Option Rect))
  | halSetLayerZOrder (display layer : Int) (z : Int)
  | halSetLayerColorTransform (display layer : Int) (matrix : List Int)
  | halSetLayerPerFrameMetadata (display layer : Int) (metadata : List (Option Int))
  | halSetLayerPerFrameMetadataBlobs (display layer : Int) (metadata : List (Option Int))
  | setError (idx : Nat) (err : Int)
  | setChangedCompositionTypes (display : Int) (layers : List Int) (types : List Int)
  | setDisplayRequests (display : Int) (mask : Int) (layers : List Int) (masks : List Int)
  | setPresentFence (display : Int) (fence : Int)
  | setReleaseFences (display : Int) (layers : List Int) (fences : List Int)
  | setPresentOrValidateResult (display : Int) (result : PovResult)
  deriving DecidableEq

/-- Conversion of an AIDL native handle; the identity on this model. -/
def makeFromAidl (handle : Int) : Int := handle

/-- The DISPATCH_LAYER_COMMAND and DISPATCH_DISPLAY_COMMAND macro body:
    run the handler only when the optional field is populated. -/
def dispatchOpt {α : Type} (field : Option α) (handler : α → List Event) : List Event :=
  match field with
  | some value => handler value
  | none => []

/-- ComposerCommandEngine::executeValidateDisplayInternal: calls the hardware
    validate, unconditionally clears the must-validate flag, then either
    publishes the changed composition types and display requests (status NONE
    or HAS_CHANGES) or records the status as an error against the current
    command index. Returns the raw status, the updated flag state and the
    events. -/
def executeValidateDisplayInternal (e : Env) (idx : Nat) (display : Int)
    (mv : MustValidate) : Int × MustValidate × List Event :=
  let out := e.hal.validateDisplay display
  let mv2 : MustValidate := fun d => if d = display then false else mv d
  if out.err = HWC2_ERROR_NONE ∨ out.err = HWC2_ERROR_HAS_CHANGES then
    (out.err, mv2,
      [Event.halValidateDisplay display,
       Event.setChangedCompositionTypes display out.changedLayers out.compositionTypes,
       Event.setDisplayRequests display out.displayRequestMask out.requestedLayers
         out.requestMasks])
  else
    (out.err, mv2, [Event.halValidateDisplay display, Event.setError idx out.err])

/-- ComposerCommandEngine::executeSetColorTransform. -/
def executeSetColorTransform (e : Env) (idx : Nat) (display : Int)
    (matrix : List Int) : List Event :=
  let err := e.hal.setColorTransform display matrix
  Event.halSetColorTransform display matrix ::
    (if err ≠ 0 then [Event.setError idx err] else [])

/-- ComposerCommandEngine::executeSetClientTarget: resolve the client target
    through the resource cache (use-cache fast path when no handle is
    supplied), then set it on the hardware; either failure is recorded against
    the current command index. -/
def executeSetClientTarget (e : Env) (idx : Nat) (display : Int)
    (command : ClientTarget) : List Event :=
  let useCache := command.buffer.handle.isNone
  let handle := command.buffer.handle.map makeFromAidl
  let r := e.res.getDisplayClientTarget display command.buffer.slot useCache handle
  if r.1 = 0 then
    let clientTarget := r.2
    let err := e.hal.setClientTarget display clientTarget command.buffer.fence
      command.dataspace command.damage
    Event.halSetClientTarget display clientTarget command.buffer.fence
        command.dataspace command.damage ::
      (if err ≠ 0 then [Event.setError idx err] else [])
  else
    [Event.setError idx r.1]

/-- ComposerCommandEngine::executeSetOutputBuffer, same resolution pattern as
    the client target against the virtual-display output slot namespace. -/
def executeSetOutputBuffer (e : Env) (idx : Nat) (display : Int)
    (buffer : Buffer) : List Event :=
  let useCache := buffer.handle.isNone
  let handle := buffer.handle.map makeFromAidl
  let r := e.res.getDisplayOutputBuffer display buffer.slot useCache handle
  if r.1 = 0 then
    let outputBuffer := r.2
    let err := e.hal.setOutputBuffer display outputBuffer buffer.fence
    Event.halSetOutputBuffer display outputBuffer buffer.fence ::
      (if err ≠ 0 then [Event.setError idx err] else [])
  else
    [Event.setError idx r.1]

/-- ComposerCommandEngine::executeSetExpectedPresentTimeInternal; the hardware
    status is ignored by the engine. -/
def executeSetExpectedPresentTimeInternal (e : Env) (display : Int)
    (expectedPresentTime : Option Int) : List Event :=
  let _status := e.hal.setExpectedPresentTime display expectedPresentTime
  [Event.halSetExpectedPresentTime display expectedPresentTime]

/-- ComposerCommandEngine::executeValidateDisplay: set the expected present
    time, then validate; the validate status is discarded here. -/
def executeValidateDisplay (e : Env) (idx : Nat) (display : Int)
    (expectedPresentTime : Option Int) (mv : MustValidate) :
    MustValidate × List Event :=
  let t0 := executeSetExpectedPresentTimeInternal e display expectedPresentTime
  let v := executeValidateDisplayInternal e idx display mv
  (v.2.1, t0 ++ v.2.2)

/-- ComposerCommandEngine::executeSetDisplayBrightness. -/
def executeSetDisplayBrightness (e : Env) (idx : Nat) (display : Int)
    (command : DisplayBrightness) : List Event :=
  let err := e.hal.setDisplayBrightness display command.brightness
  Event.halSetDisplayBrightness display command.brightness ::
    (if err ≠ 0 then [Event.setError idx err] else [])

/-- ComposerCommandEngine::executeAcceptDisplayChanges. -/
def executeAcceptDisplayChanges (e : Env) (idx : Nat) (display : Int) :
    List Event :=
  let err := e.hal.acceptDisplayChanges display
  Event.halAcceptDisplayChanges display ::
    (if err ≠ 0 then [Event.setError idx err] else [])

/-- ComposerCommandEngine::executePresentDisplay: on success record the
    present fence (when valid) and the release fences; the raw status is
    returned to the caller and never recorded as an error here. -/
def executePresentDisplay (e : Env) (display : Int) : Int × List Event :=
  let out := e.hal.presentDisplay display
  if out.err = 0 then
    (out.err,
      Event.halPresentDisplay display ::
        ((if out.presentFence ≠ -1 then [Event.setPresentFence display out.presentFence]
          else []) ++
         [Event.setReleaseFences display out.layers out.fences]))
  else
    (out.err, [Event.halPresentDisplay display])

/-- ComposerCommandEngine::executePresentOrValidateDisplay: set the expected
    present time; try a direct present unless the must-validate flag is set
    (in which case the attempt is short-circuited to EX_NOT_VALIDATED without
    touching the hardware); on direct-present success publish Presented.
    Otherwise fall back to validate; a hard validate error stops the protocol
    with no outcome published. If validate reported changes, or the display
    has client composition, publish Validated; otherwise accept the changes
    and present again, publishing Presented only if that present succeeds. -/
def executePresentOrValidateDisplay (e : Env) (idx : Nat) (display : Int)
    (expectedPresentTime : Option Int) (mv : MustValidate) :
    MustValidate × List Event :=
  let t0 := executeSetExpectedPresentTimeInternal e display expectedPresentTime
  let firstTry : Int × List Event :=
    if mv display then (EX_NOT_VALIDATED, []) else executePresentDisplay e display
  if firstTry.1 = 0 then
    (mv, t0 ++ firstTry.2 ++
      [Event.setPresentOrValidateResult display PovResult.Presented])
  else
    let v := executeValidateDisplayInternal e idx display mv
    if v.1 ≠ HWC2_ERROR_NONE ∧ v.1 ≠ HWC2_ERROR_HAS_CHANGES then
      (v.2.1, t0 ++ firstTry.2 ++ v.2.2)
    else
      let cc : Bool × List Event :=
        if v.1 = HWC2_ERROR_HAS_CHANGES then (true, [])
        else
          let q := e.hal.getHasClientComposition display
          ((if q.1 = HWC2_ERROR_NONE then q.2 else false),
           [Event.halGetHasClientComposition display])
      if cc.1 then
        (v.2.1, t0 ++ firstTry.2 ++ v.2.2 ++ cc.2 ++
          [Event.setPresentOrValidateResult display PovResult.Validated])
      else
        let ta := executeAcceptDisplayChanges e idx display
        let p2 := executePresentDisplay e display
        let tr := if p2.1 = 0 then
            [Event.setPresentOrValidateResult display PovResult.Presented]
          else []
        (v.2.1, t0 ++ firstTry.2 ++ v.2.2 ++ cc.2 ++ ta ++ p2.2 ++ tr)

/-- ComposerCommandEngine::executeSetLayerCursorPosition. -/
def executeSetLayerCursorPosition (e : Env) (idx : Nat) (display layer : Int)
    (cursorPosition : Point) : List Event :=
  let err := e.hal.setLayerCursorPosition display layer cursorPosition.x cursorPosition.y
  Event.halSetLayerCursorPosition display layer cursorPosition.x cursorPosition.y ::
    (if err ≠ 0 then [Event.setError idx err] else [])

/-- ComposerCommandEngine::executeSetLayerBuffer: resolve through the resource
    cache then set on the hardware; either failure is recorded. -/
def executeSetLayerBuffer (e : Env) (idx : Nat) (display layer : Int)
    (buffer : Buffer) : List Event :=
  let useCache := buffer.handle.isNone
  let handle := buffer.handle.map makeFromAidl
  let r := e.res.getLayerBuffer display layer buffer.slot useCache handle
  if r.1 = 0 then
    let hwcBuffer := r.2
    let err := e.hal.setLayerBuffer display layer hwcBuffer buffer.fence
    Event.halSetLayerBuffer display layer hwcBuffer buffer.fence ::
      (if err ≠ 0 then [Event.setError idx err] else [])
  else
    [Event.setError idx r.1]

/-- ComposerCommandEngine::executeSetLayerSurfaceDamage. -/
def executeSetLayerSurfaceDamage (e : Env) (idx : Nat) (display layer : Int)
    (damage : List (Option Rect)) : List Event :=
  let err := e.hal.setLayerSurfaceDamage display layer damage
  Event.halSetLayerSurfaceDamage display layer damage ::
    (if err ≠ 0 then [Event.setError idx err] else [])

/-- ComposerCommandEngine::executeSetLayerBlendMode. -/
def executeSetLayerBlendMode (e : Env) (idx : Nat) (display layer : Int)
    (blendMode : ParcelableBlendMode) : List Event :=
  let err := e.hal.setLayerBlendMode display layer blendMode.blendMode
  Event.halSetLayerBlendMode display layer blendMode.blendMode ::
    (if err ≠ 0 then [Event.setError idx err] else [])

/-- ComposerCommandEngine::executeSetLayerColor. -/
def executeSetLayerColor (e : Env) (idx : Nat) (display layer : Int)
    (color : Int) : List Event :=
  let err := e.hal.setLayerColor display layer color
  Event.halSetLayerColor display layer color ::
    (if err ≠ 0 then [Event.setError idx err] else [])

/-- ComposerCommandEngine::executeSetLayerComposition. -/
def executeSetLayerComposition (e : Env) (idx : Nat) (display layer : Int)
    (composition : ParcelableComposition) : List Event :=
  let err := e.hal.setLayerCompositionType display layer composition.composition
  Event.halSetLayerCompositionType display layer composition.composition ::
    (if err ≠ 0 then [Event.setError idx err] else [])

/-- ComposerCommandEngine::executeSetLayerDataspace. -/
def executeSetLayerDataspace (e : Env) (idx : Nat) (display layer : Int)
    (dataspace : ParcelableDataspace) : List Event :=
  let err := e.hal.setLayerDataspace display layer dataspace.dataspace
  Event.halSetLayerDataspace display layer dataspace.dataspace ::
    (if err ≠ 0 then [Event.setError idx err] else [])

/-- ComposerCommandEngine::executeSetLayerDisplayFrame. -/
def executeSetLayerDisplayFrame (e : Env) (idx : Nat) (display layer : Int)
    (rect : Rect) : List Event :=
  let err := e.hal.setLayerDisplayFrame display layer rect
  Event.halSetLayerDisplayFrame display layer rect ::
    (if err ≠ 0 then [Event.setError idx err] else [])

/-- ComposerCommandEngine::executeSetLayerPlaneAlpha. -/
def executeSetLayerPlaneAlpha (e : Env) (idx : Nat) (display layer : Int)
    (planeAlpha : PlaneAlpha) : List Event :=
  let err := e.hal.setLayerPlaneAlpha display layer planeAlpha.alpha
  Event.halSetLayerPlaneAlpha display layer planeAlpha.alpha ::
    (if err ≠ 0 then [Event.setError idx err] else [])

/-- ComposerCommandEngine::executeSetLayerSidebandStream, embedded exactly as
    written: the resolver status is consulted with a plain truthiness test, a
    nonzero resolver status triggers the hardware call (overwriting the
    status), and only a final nonzero status is recorded as an error. -/
def executeSetLayerSidebandStream (e : Env) (idx : Nat) (display layer : Int)
    (sidebandStream : Int) : List Event :=
  let handle := makeFromAidl sidebandStream
  let r := e.res.getLayerSidebandStream display layer handle
  let afterHal : Int × List Event :=
    if r.1 ≠ 0 then
      let stream := r.2
      (e.hal.setLayerSidebandStream display layer stream,
       [Event.halSetLayerSidebandStream display layer stream])
    else
      (r.1, [])
  afterHal.2 ++ (if afterHal.1 ≠ 0 then [Event.setError idx afterHal.1] else [])

/-- ComposerCommandEngine::executeSetLayerSourceCrop. -/
def executeSetLayerSourceCrop (e : Env) (idx : Nat) (display layer : Int)
    (sourceCrop : FRect) : List Event :=
  let err := e.hal.setLayerSourceCrop display layer sourceCrop
  Event.halSetLayerSourceCrop display layer sourceCrop ::
    (if err ≠ 0 then [Event.setError idx err] else [])

/-- ComposerCommandEngine::executeSetLayerTransform. -/
def executeSetLayerTransform (e : Env) (idx : Nat) (display layer : Int)
    (transform : ParcelableTransform) : List Event :=
  let err := e.hal.setLayerTransform display layer transform.transform
  Event.halSetLayerTransform display layer transform.transform ::
    (if err ≠ 0 then [Event.setError idx err] else [])

/-- ComposerCommandEngine::executeSetLayerVisibleRegion. -/
def executeSetLayerVisibleRegion (e : Env) (idx : Nat) (display layer : Int)
    (visibleRegion : List (Option Rect)) : List Event :=
  let err := e.hal.setLayerVisibleRegion display layer visibleRegion
  Event.halSetLayerVisibleRegion display layer visibleRegion ::
    (if err ≠ 0 then [Event.setError idx err] else [])

/-- ComposerCommandEngine::executeSetLayerZOrder. -/
def executeSetLayerZOrder (e : Env) (idx : Nat) (display layer : Int)
    (zOrder : ZOrder) : List Event :=
  let err := e.hal.setLayerZOrder display layer zOrder.z
  Event.halSetLayerZOrder display layer zOrder.z ::
    (if err ≠ 0 then [Event.setError idx err] else [])

/-- ComposerCommandEngine::executeSetLayerColorTransform. -/
def executeSetLayerColorTransform (e : Env) (idx : Nat) (display layer : Int)
    (matrix : List Int) : List Event :=
  let err := e.hal.setLayerColorTransform display layer matrix
  Event.halSetLayerColorTransform display layer matrix ::
    (if err ≠ 0 then [Event.setError idx err] else [])

/-- ComposerCommandEngine::executeSetLayerPerFrameMetadata. -/
def executeSetLayerPerFrameMetadata (e : Env) (idx : Nat) (display layer : Int)
    (perFrameMetadata : List (Option Int)) : List Event :=
  let err := e.hal.setLayerPerFrameMetadata display layer perFrameMetadata
  Event.halSetLayerPerFrameMetadata display layer perFrameMetadata ::
    (if err ≠ 0 then [Event.setError idx err] else [])

/-- ComposerCommandEngine::executeSetLayerPerFrameMetadataBlobs. -/
def executeSetLayerPerFrameMetadataBlobs (e : Env) (idx : Nat)
    (display layer : Int) (metadata : List (Option Int)) : List Event :=
  let err := e.hal.setLayerPerFrameMetadataBlobs display layer metadata
  Event.halSetLayerPerFrameMetadataBlobs display layer metadata ::
    (if err ≠ 0 then [Event.setError idx err] else [])

/-- ComposerCommandEngine::dispatchLayerCommand: one conditional dispatch per
    optional field, in the order of the source. -/
def dispatchLayerCommand (e : Env) (idx : Nat) (display : Int)
    (command : LayerCommand) : List Event :=
  dispatchOpt command.cursorPosition
      (fun v => executeSetLayerCursorPosition e idx display command.layer v) ++
  dispatchOpt command.buffer
      (fun v => executeSetLayerBuffer e idx display command.layer v) ++
  dispatchOpt command.damage
      (fun v => executeSetLayerSurfaceDamage e idx display command.layer v) ++
  dispatchOpt command.blendMode
      (fun v => executeSetLayerBlendMode e idx display command.layer v) ++
  dispatchOpt command.color
      (fun v => executeSetLayerColor e idx display command.layer v) ++
  dispatchOpt command.composition
      (fun v => executeSetLayerComposition e idx display command.layer v) ++
  dispatchOpt command.dataspace
      (fun v => executeSetLayerDataspace e idx display command.layer v) ++
  dispatchOpt command.displayFrame
      (fun v => executeSetLayerDisplayFrame e idx display command.layer v) ++
  dispatchOpt command.planeAlpha
      (fun v => executeSetLayerPlaneAlpha e idx display command.layer v) ++
  dispatchOpt command.sidebandStream
      (fun v => executeSetLayerSidebandStream e idx display command.layer v) ++
  dispatchOpt command.sourceCrop
      (fun v => executeSetLayerSourceCrop e idx display command.layer v) ++
  dispatchOpt command.transform
      (fun v => executeSetLayerTransform e idx display command.layer v) ++
  dispatchOpt command.visibleRegion
      (fun v => executeSetLayerVisibleRegion e idx display command.layer v) ++
  dispatchOpt command.z
      (fun v => executeSetLayerZOrder e idx display command.layer v) ++
  dispatchOpt command.colorTransform
      (fun v => executeSetLayerColorTransform e idx display command.layer v) ++
  dispatchOpt command.perFrameMetadata
      (fun v => executeSetLayerPerFrameMetadata e idx display command.layer v) ++
  dispatchOpt command.perFrameMetadataBlob
      (fun v => executeSetLayerPerFrameMetadataBlobs e idx display command.layer v)

/-- ComposerCommandEngine::dispatchDisplayCommand: dispatch every layer
    command in list order, then the display-level fields in the fixed order
    of the source; the status returned by executePresentDisplay is discarded
    by the dispatcher. -/
def dispatchDisplayCommand (e : Env) (idx : Nat) (mv : MustValidate)
    (command : DisplayCommand) : MustValidate × List Event :=
  let layerEvents :=
    (command.layers.map fun layerCmd =>
      dispatchLayerCommand e idx command.display layerCmd).flatten
  let t1 := dispatchOpt command.colorTransformMatrix
    (fun v => executeSetColorTransform e idx command.display v)
  let t2 := dispatchOpt command.clientTarget
    (fun v => executeSetClientTarget e idx command.display v)
  let t3 := dispatchOpt command.virtualDisplayOutputBuffer
    (fun v => executeSetOutputBuffer e idx command.display v)
  let t4 := dispatchOpt command.brightness
    (fun v => executeSetDisplayBrightness e idx command.display v)
  let v5 : MustValidate × List Event :=
    if command.validateDisplay then
      executeValidateDisplay e idx command.display command.expectedPresentTime mv
    else (mv, [])
  let t6 := if command.acceptDisplayChanges then
      executeAcceptDisplayChanges e idx command.display
    else []
  let t7 := if command.presentDisplay then (executePresentDisplay e command.display).2
    else []
  let v8 : MustValidate × List Event :=
    if command.presentOrValidateDisplay then
      executePresentOrValidateDisplay e idx command.display
        command.expectedPresentTime v5.1
    else (v5.1, [])
  (v8.1, layerEvents ++ t1 ++ t2 ++ t3 ++ t4 ++ v5.2 ++ t6 ++ t7 ++ v8.2)

/-- The loop body of ComposerCommandEngine::execute: dispatch each command at
    the current index, then advance the index. -/
def executeFrom (e : Env) (idx : Nat) (mv : MustValidate) :
    List DisplayCommand → MustValidate × List Event
  | [] => (mv, [])
  | command :: rest =>
    let d := dispatchDisplayCommand e idx mv command
    let r := executeFrom e (idx + 1) d.1 rest
    (r.1, d.2 ++ r.2)

/-- ComposerCommandEngine::execute: reset the command index to zero, dispatch
    the batch in order, drain the writer (the event trace holds the pending
    results) and return zero. -/
def execute (e : Env) (mv : MustValidate) (commands : List DisplayCommand) :
    Int × MustValidate × List Event :=
  let r := executeFrom e 0 mv commands
  (0, r.1, r.2)

/-- The per-command event blocks of one execution: block i holds exactly the
    events produced while dispatching the i-th command at command index i. -/
def commandTraces (e : Env) (idx : Nat) (mv : MustValidate) :
    List DisplayCommand → List (List Event)
  | [] => []
  | command :: rest =>
    let d := dispatchDisplayCommand e idx mv command
    d.2 :: commandTraces e (idx + 1) d.1 rest

/-- The event trace of one execution. -/
def execTrace (e : Env) (mv : MustValidate) (commands : List DisplayCommand) :
    List Event :=
  (execute e mv commands).2.2

/-- The command index carried by an error record, if the event is one. -/
def errIdx : Event → Option Nat
  | Event.setError idx _ => some idx
  | _ => none

/-- Command indices of the error records of a trace, in record order. -/
def errorIndices (t : List Event) : List Nat := t.filterMap errIdx

/-- Recognizer for hardware validate calls. -/
def isHalValidate : Event → Bool
  | Event.halValidateDisplay _ => true
  | _ => false

/-- Recognizer for hardware accept-changes calls. -/
def isHalAccept : Event → Bool
  | Event.halAcceptDisplayChanges _ => true
  | _ => false

/-- Recognizer for hardware present calls. -/
def isHalPresent : Event → Bool
  | Event.halPresentDisplay _ => true
  | _ => false

/-- The present-or-validate outcome carried by an event, if any. -/
def povOf : Event → Option (Int × PovResult)
  | Event.setPresentOrValidateResult display result => some (display, result)
  | _ => none

/-- Published present-or-validate outcomes of a trace, in record order. -/
def povResults (t : List Event) : List (Int × PovResult) := t.filterMap povOf

/-- True when no optional per-layer field of the command is populated. -/
def hasNoLayerFields (c : LayerCommand) : Bool :=
  c.cursorPosition.isNone && c.buffer.isNone && c.damage.isNone &&
  c.blendMode.isNone && c.color.isNone && c.composition.isNone &&
  c.dataspace.isNone && c.displayFrame.isNone && c.planeAlpha.isNone &&
  c.sidebandStream.isNone && c.sourceCrop.isNone && c.transform.isNone &&
  c.visibleRegion.isNone && c.z.isNone && c.colorTransform.isNone &&
  c.perFrameMetadata.isNone && c.perFrameMetadataBlob.isNone

/-- An all-success hardware oracle, used to instantiate theorems at concrete
    inputs. -/
def hal0 : Hal where
  setColorTransform := fun _ _ => 0
  setClientTarget := fun _ _ _ _ _ => 0
  setOutputBuffer := fun _ _ _ => 0
  setExpectedPresentTime := fun _ _ => 0
  setDisplayBrightness := fun _ _ => 0
  validateDisplay := fun _ => { err := 0 }
  acceptDisplayChanges := fun _ => 0
  presentDisplay := fun _ => { err := 0 }
  getHasClientComposition := fun _ => (0, false)
  setLayerCursorPosition := fun _ _ _ _ => 0
  setLayerBuffer := fun _ _ _ _ => 0
  setLayerSurfaceDamage := fun _ _ _ => 0
  setLayerBlendMode := fun _ _ _ => 0
  setLayerColor := fun _ _ _ => 0
  setLayerCompositionType := fun _ _ _ => 0
  setLayerDataspace := fun _ _ _ => 0
  setLayerDisplayFrame := fun _ _ _ => 0
  setLayerPlaneAlpha := fun _ _ _ => 0
  setLayerSidebandStream := fun _ _ _ => 0
  setLayerSourceCrop := fun _ _ _ => 0
  setLayerTransform := fun _ _ _ => 0
  setLayerVisibleRegion := fun _ _ _ => 0
  setLayerZOrder := fun _ _ _ => 0
  setLayerColorTransform := fun _ _ _ => 0
  setLayerPerFrameMetadata := fun _ _ _ => 0
  setLayerPerFrameMetadataBlobs := fun _ _ _ => 0

/-- An all-success resource-cache oracle. -/
def res0 : Resources where
  getDisplayClientTarget := fun _ _ _ _ => (0, 0)
  getDisplayOutputBuffer := fun _ _ _ _ => (0, 0)
  getLayerBuffer := fun _ _ _ _ _ => (0, 0)
  getLayerSidebandStream := fun _ _ _ => (0, 0)

/-- All-success environment. -/
def env0 : Env := ⟨hal0, res0⟩

/-- Environment whose present operation always fails with status 1. -/
def envPresentFail : Env :=
  { env0 with hal := { hal0 with presentDisplay := fun _ => { err := 1 } } }

/-- Environment whose validate operation always fails hard with status 2. -/
def envValidateFail : Env :=
  { env0 with hal := { hal0 with validateDisplay := fun _ => { err := 2 },
                                 presentDisplay := fun _ => { err := 1 } } }

/-- Environment whose sideband-stream resolution fails with status 3,
    resolving to handle 99. -/
def envSideband : Env :=
  { env0 with res := { res0 with getLayerSidebandStream := fun _ _ _ => (3, 99) } }

/-- Every error record in the trace carries command index idx. -/
def ErrAt (idx : Nat) (t : List Event) : Prop :=
  ∀ j ∈ errorIndices t, j = idx

theorem dispatchOpt_none {α : Type} (handler : α → List Event) :
    dispatchOpt none handler = [] := rfl

theorem dispatchOpt_some {α : Type} (value : α) (handler : α → List Event) :
    dispatchOpt (some value) handler = handler value := rfl

theorem errAt_nil {idx : Nat} : ErrAt idx [] := by
  intro j hj
  simp [errorIndices] at hj

theorem errAt_append {idx : Nat} {a b : List Event}
    (ha : ErrAt idx a) (hb : ErrAt idx b) : ErrAt idx (a ++ b) := by
  intro j hj
  rw [errorIndices, List.filterMap_append] at hj
  rcases List.mem_append.mp hj with h | h
  · exact ha j h
  · exact hb j h

theorem errAt_single {idx : Nat} {ev : Event} (hev : errIdx ev = none) :
    ErrAt idx [ev] := by
  intro j hj
  simp [errorIndices, hev] at hj

theorem errAt_cons {idx : Nat} {ev : Event} {t : List Event}
    (hev : errIdx ev = none) (ht : ErrAt idx t) : ErrAt idx (ev :: t) := by
  intro j hj
  simp only [errorIndices, List.filterMap_cons, hev] at hj
  exact ht j hj

theorem errAt_ite {idx : Nat} (c : Prop) [Decidable c] {a b : List Event}
    (ha : ErrAt idx a) (hb : ErrAt idx b) : ErrAt idx (if c then a else b) := by
  split
  · exact ha
  · exact hb

theorem errAt_record {idx : Nat} {err : Int} :
    ErrAt idx (if err ≠ 0 then [Event.setError idx err] else []) := by
  intro j hj
  by_cases h : err ≠ 0 <;> simp [h, errorIndices, errIdx] at hj
  exact hj

theorem errAt_record_only {idx : Nat} {err : Int} :
    ErrAt idx [Event.setError idx err] := by
  intro j hj
  simp [errorIndices, errIdx] at hj
  exact hj

theorem errAt_dispatchOpt {α : Type} {idx : Nat} (o : Option α)
    (f : α → List Event) (h : ∀ v, ErrAt idx (f v)) :
    ErrAt idx (dispatchOpt o f) := by
  cases o with
  | none => exact errAt_nil
  | some v => exact h v

theorem errAt_ite_snd {idx : Nat} {β : Type} (c : Prop) [Decidable c]
    {p q : β × List Event} (hp : ErrAt idx p.2) (hq : ErrAt idx q.2) :
    ErrAt idx (if c then p else q).2 := by
  split
  · exact hp
  · exact hq

theorem errAt_setColorTransform (e : Env) (idx : Nat) (display : Int)
    (matrix : List Int) :
    ErrAt idx (executeSetColorTransform e idx display matrix) := by
  simp only [executeSetColorTransform]
  exact errAt_cons rfl errAt_record

theorem errAt_setClientTarget (e : Env) (idx : Nat) (display : Int)
    (command : ClientTarget) :
    ErrAt idx (executeSetClientTarget e idx display command) := by
  simp only [executeSetClientTarget]
  exact errAt_ite _ (errAt_cons rfl errAt_record) errAt_record_only

theorem errAt_setOutputBuffer (e : Env) (idx : Nat) (display : Int)
    (buffer : Buffer) : ErrAt idx (executeSetOutputBuffer e idx display buffer) := by
  simp only [executeSetOutputBuffer]
  exact errAt_ite _ (errAt_cons rfl errAt_record) errAt_record_only

theorem errAt_setDisplayBrightness (e : Env) (idx : Nat) (display : Int)
    (command : DisplayBrightness) :
    ErrAt idx (executeSetDisplayBrightness e idx display command) := by
  simp only [executeSetDisplayBrightness]
  exact errAt_cons rfl errAt_record

theorem errAt_ept (e : Env) (idx : Nat) (display : Int) (t : Option Int) :
    ErrAt idx (executeSetExpectedPresentTimeInternal e display t) := by
  simp only [executeSetExpectedPresentTimeInternal]
  exact errAt_single rfl

theorem errAt_validateInternal (e : Env) (idx : Nat) (display : Int)
    (mv : MustValidate) :
    ErrAt idx (executeValidateDisplayInternal e idx display mv).2.2 := by
  intro j hj
  unfold executeValidateDisplayInternal at hj
  by_cases h : (e.hal.validateDisplay display).err = HWC2_ERROR_NONE ∨
      (e.hal.validateDisplay display).err = HWC2_ERROR_HAS_CHANGES <;>
    simp [h, errorIndices, errIdx] at hj
  exact hj

theorem errAt_validateDisplay (e : Env) (idx : Nat) (display : Int)
    (t : Option Int) (mv : MustValidate) :
    ErrAt idx (executeValidateDisplay e idx display t mv).2 := by
  simp only [executeValidateDisplay]
  exact errAt_append (errAt_ept e idx display t)
    (errAt_validateInternal e idx display mv)

theorem errAt_accept (e : Env) (idx : Nat) (display : Int) :
    ErrAt idx (executeAcceptDisplayChanges e idx display) := by
  simp only [executeAcceptDisplayChanges]
  exact errAt_cons rfl errAt_record

theorem errAt_present (e : Env) (idx : Nat) (display : Int) :
    ErrAt idx (executePresentDisplay e display).2 := by
  intro j hj
  unfold executePresentDisplay at hj
  by_cases h : (e.hal.presentDisplay display).err = 0 <;>
    by_cases hf : (e.hal.presentDisplay display).presentFence ≠ -1 <;>
      simp [h, hf, errorIndices, errIdx] at hj

theorem errAt_pov (e : Env) (idx : Nat) (display : Int) (t : Option Int)
    (mv : MustValidate) :
    ErrAt idx (executePresentOrValidateDisplay e idx display t mv).2 := by
  simp only [executePresentOrValidateDisplay]
  repeat' first
  | apply errAt_ite
  | apply errAt_append
  | exact errAt_nil
  | exact errAt_ept e idx display t
  | exact errAt_validateInternal e idx display mv
  | exact errAt_accept e idx display
  | exact errAt_present e idx display
  | exact errAt_single rfl
  | exact errAt_record_only
  | exact errAt_record
  | apply errAt_ite_snd

theorem errAt_layerCursorPosition (e : Env) (idx : Nat) (display layer : Int)
    (v : Point) :
    ErrAt idx (executeSetLayerCursorPosition e idx display layer v) := by
  simp only [executeSetLayerCursorPosition]
  exact errAt_cons rfl errAt_record

theorem errAt_layerBuffer (e : Env) (idx : Nat) (display layer : Int)
    (v : Buffer) : ErrAt idx (executeSetLayerBuffer e idx display layer v) := by
  simp only [executeSetLayerBuffer]
  exact errAt_ite _ (errAt_cons rfl errAt_record) errAt_record_only

theorem errAt_layerSurfaceDamage (e : Env) (idx : Nat) (display layer : Int)
    (v : List (Option Rect)) :
    ErrAt idx (executeSetLayerSurfaceDamage e idx display layer v) := by
  simp only [executeSetLayerSurfaceDamage]
  exact errAt_cons rfl errAt_record

theorem errAt_layerBlendMode (e : Env) (idx : Nat) (display layer : Int)
    (v : ParcelableBlendMode) :
    ErrAt idx (executeSetLayerBlendMode e idx display layer v) := by
  simp only [executeSetLayerBlendMode]
  exact errAt_cons rfl errAt_record

theorem errAt_layerColor (e : Env) (idx : Nat) (display layer : Int)
    (v : Int) : ErrAt idx (executeSetLayerColor e idx display layer v) := by
  simp only [executeSetLayerColor]
  exact errAt_cons rfl errAt_record

theorem errAt_layerComposition (e : Env) (idx : Nat) (display layer : Int)
    (v : ParcelableComposition) :
    ErrAt idx (executeSetLayerComposition e idx display layer v) := by
  simp only [executeSetLayerComposition]
  exact errAt_cons rfl errAt_record

theorem errAt_layerDataspace (e : Env) (idx : Nat) (display layer : Int)
    (v : ParcelableDataspace) :
    ErrAt idx (executeSetLayerDataspace e idx display layer v) := by
  simp only [executeSetLayerDataspace]
  exact errAt_cons rfl errAt_record

theorem errAt_layerDisplayFrame (e : Env) (idx : Nat) (display layer : Int)
    (v : Rect) :
    ErrAt idx (executeSetLayerDisplayFrame e idx display layer v) := by
  simp only [executeSetLayerDisplayFrame]
  exact errAt_cons rfl errAt_record

theorem errAt_layerPlaneAlpha (e : Env) (idx : Nat) (display layer : Int)
    (v : PlaneAlpha) :
    ErrAt idx (executeSetLayerPlaneAlpha e idx display layer v) := by
  simp only [executeSetLayerPlaneAlpha]
  exact errAt_cons rfl errAt_record

theorem errAt_layerSidebandStream (e : Env) (idx : Nat) (display layer : Int)
    (v : Int) :
    ErrAt idx (executeSetLayerSidebandStream e idx display layer v) := by
  simp only [executeSetLayerSidebandStream]
  apply errAt_append
  · apply errAt_ite_snd
    · exact errAt_single rfl
    · exact errAt_nil
  · exact errAt_record

theorem errAt_layerSourceCrop (e : Env) (idx : Nat) (display layer : Int)
    (v : FRect) :
    ErrAt idx (executeSetLayerSourceCrop e idx display layer v) := by
  simp only [executeSetLayerSourceCrop]
  exact errAt_cons rfl errAt_record

theorem errAt_layerTransform (e : Env) (idx : Nat) (display layer : Int)
    (v : ParcelableTransform) :
    ErrAt idx (executeSetLayerTransform e idx display layer v) := by
  simp only [executeSetLayerTransform]
  exact errAt_cons rfl errAt_record

theorem errAt_layerVisibleRegion (e : Env) (idx : Nat) (display layer : Int)
    (v : List (Option Rect)) :
    ErrAt idx (executeSetLayerVisibleRegion e idx display layer v) := by
  simp only [executeSetLayerVisibleRegion]
  exact errAt_cons rfl errAt_record

theorem errAt_layerZOrder (e : Env) (idx : Nat) (display layer : Int)
    (v : ZOrder) : ErrAt idx (executeSetLayerZOrder e idx display layer v) := by
  simp only [executeSetLayerZOrder]
  exact errAt_cons rfl errAt_record

theorem errAt_layerColorTransform (e : Env) (idx : Nat) (display layer : Int)
    (v : List Int) :
    ErrAt idx (executeSetLayerColorTransform e idx display layer v) := by
  simp only [executeSetLayerColorTransform]
  exact errAt_cons rfl errAt_record

theorem errAt_layerPerFrameMetadata (e : Env) (idx : Nat) (display layer : Int)
    (v : List (Option Int)) :
    ErrAt idx (executeSetLayerPerFrameMetadata e idx display layer v) := by
  simp only [executeSetLayerPerFrameMetadata]
  exact errAt_cons rfl errAt_record

theorem errAt_layerPerFrameMetadataBlobs (e : Env) (idx : Nat)
    (display layer : Int) (v : List (Option Int)) :
    ErrAt idx (executeSetLayerPerFrameMetadataBlobs e idx display layer v) := by
  simp only [executeSetLayerPerFrameMetadataBlobs]
  exact errAt_cons rfl errAt_record

theorem errAt_dispatchLayerCommand (e : Env) (idx : Nat) (display : Int)
    (command : LayerCommand) :
    ErrAt idx (dispatchLayerCommand e idx display command) := by
  simp only [dispatchLayerCommand]
  repeat' first
  | apply errAt_append
  | apply errAt_dispatchOpt
  | exact fun v => errAt_layerCursorPosition e idx display command.layer v
  | exact fun v => errAt_layerBuffer e idx display command.layer v
  | exact fun v => errAt_layerSurfaceDamage e idx display command.layer v
  | exact fun v => errAt_layerBlendMode e idx display command.layer v
  | exact fun v => errAt_layerColor e idx display command.layer v
  | exact fun v => errAt_layerComposition e idx display command.layer v
  | exact fun v => errAt_layerDataspace e idx display command.layer v
  | exact fun v => errAt_layerDisplayFrame e idx display command.layer v
  | exact fun v => errAt_layerPlaneAlpha e idx display command.layer v
  | exact fun v => errAt_layerSidebandStream e idx display command.layer v
  | exact fun v => errAt_layerSourceCrop e idx display command.layer v
  | exact fun v => errAt_layerTransform e idx display command.layer v
  | exact fun v => errAt_layerVisibleRegion e idx display command.layer v
  | exact fun v => errAt_layerZOrder e idx display command.layer v
  | exact fun v => errAt_layerColorTransform e idx display command.layer v
  | exact fun v => errAt_layerPerFrameMetadata e idx display command.layer v
  | exact fun v => errAt_layerPerFrameMetadataBlobs e idx display command.layer v

theorem errAt_flatten {idx : Nat} (ts : List (List Event))
    (h : ∀ t ∈ ts, ErrAt idx t) : ErrAt idx ts.flatten := by
  induction ts with
  | nil => exact errAt_nil
  | cons a ts ih =>
    rw [List.flatten_cons]
    exact errAt_append (h a (List.mem_cons_self a ts))
      (ih fun t ht => h t (List.mem_cons_of_mem a ht))

theorem errAt_dispatchDisplayCommand (e : Env) (idx : Nat) (mv : MustValidate)
    (command : DisplayCommand) :
    ErrAt idx (dispatchDisplayCommand e idx mv command).2 := by
  simp only [dispatchDisplayCommand]
  repeat' first
  | apply errAt_append
  | apply errAt_ite
  | apply errAt_ite_snd
  | apply errAt_dispatchOpt
  | exact errAt_nil
  | exact errAt_flatten _ (by
      intro t ht
      rcases List.mem_map.mp ht with ⟨c, _, rfl⟩
      exact errAt_dispatchLayerCommand e idx command.display c)
  | exact fun v => errAt_setColorTransform e idx command.display v
  | exact fun v => errAt_setClientTarget e idx command.display v
  | exact fun v => errAt_setOutputBuffer e idx command.display v
  | exact fun v => errAt_setDisplayBrightness e idx command.display v
  | exact errAt_validateDisplay e idx command.display command.expectedPresentTime mv
  | exact errAt_accept e idx command.display
  | exact errAt_present e idx command.display
  | exact errAt_record_only
  | apply errAt_validateInternal

theorem executeFrom_trace_eq (e : Env) :
    ∀ (cmds : List DisplayCommand) (idx : Nat) (mv : MustValidate),
    (executeFrom e idx mv cmds).2 = (commandTraces e idx mv cmds).flatten := by
  intro cmds
  induction cmds with
  | nil => intro idx mv; rfl
  | cons c rest ih =>
    intro idx mv
    simp only [executeFrom, commandTraces, List.flatten_cons]
    rw [ih]

theorem commandTraces_length (e : Env) :
    ∀ (cmds : List DisplayCommand) (idx : Nat) (mv : MustValidate),
    (commandTraces e idx mv cmds).length = cmds.length := by
  intro cmds
  induction cmds with
  | nil => intro idx mv; rfl
  | cons c rest ih =>
    intro idx mv
    simp only [commandTraces, List.length_cons, ih]

theorem commandTraces_block_err (e : Env) :
    ∀ (cmds : List DisplayCommand) (idx : Nat) (mv : MustValidate) (k : Nat),
    ErrAt (idx + k) ((commandTraces e idx mv cmds).getD k []) := by
  intro cmds
  induction cmds with
  | nil =>
    intro idx mv k
    simp only [commandTraces, List.getD]
    exact errAt_nil
  | cons c rest ih =>
    intro idx mv k
    cases k with
    | zero =>
      simpa only [commandTraces, List.getD_cons_zero, Nat.add_zero] using
        errAt_dispatchDisplayCommand e idx mv c
    | succ k =>
      simp only [commandTraces, List.getD_cons_succ]
      have h := ih (idx + 1) (dispatchDisplayCommand e idx mv c).1 k
      have harith : idx + 1 + k = idx + (k + 1) := by omega
      rw [harith] at h
      exact h

theorem pairwise_le_of_const {l : List Nat} {c : Nat} (h : ∀ x ∈ l, x = c) :
    l.Pairwise (· ≤ ·) := by
  induction l with
  | nil => exact List.Pairwise.nil
  | cons a t ih =>
    refine List.Pairwise.cons ?_ (ih fun x hx => h x (List.mem_cons_of_mem a hx))
    intro b hb
    rw [h a (List.mem_cons_self a t), h b (List.mem_cons_of_mem a hb)]

theorem executeFrom_err_mono (e : Env) :
    ∀ (cmds : List DisplayCommand) (idx : Nat) (mv : MustValidate),
    (∀ j ∈ errorIndices (executeFrom e idx mv cmds).2,
        idx ≤ j ∧ j < idx + cmds.length) ∧
    (errorIndices (executeFrom e idx mv cmds).2).Pairwise (· ≤ ·) := by
  intro cmds
  induction cmds with
  | nil =>
    intro idx mv
    constructor
    · intro j hj
      simp [executeFrom, errorIndices] at hj
    · simp [executeFrom, errorIndices]
  | cons c rest ih =>
    intro idx mv
    have hsplit : (executeFrom e idx mv (c :: rest)).2 =
        (dispatchDisplayCommand e idx mv c).2 ++
          (executeFrom e (idx + 1) (dispatchDisplayCommand e idx mv c).1 rest).2 :=
      rfl
    have hd := errAt_dispatchDisplayCommand e idx mv c
    have hr := ih (idx + 1) (dispatchDisplayCommand e idx mv c).1
    rw [hsplit]
    constructor
    · intro j hj
      rw [errorIndices, List.filterMap_append] at hj
      rcases List.mem_append.mp hj with h | h
      · have hji := hd j h
        subst hji
        simp only [List.length_cons]
        omega
      · have := hr.1 j h
        simp only [List.length_cons]
        omega
    · rw [errorIndices, List.filterMap_append, List.pairwise_append]
      refine ⟨pairwise_le_of_const hd, hr.2, ?_⟩
      intro x hx y hy
      have hxi := hd x hx
      have hyb := (hr.1 y hy).1
      omega

theorem pairwise_lt_of_pairwise_le_nodup {l : List Nat}
    (h1 : l.Pairwise (· ≤ ·)) (h2 : l.Nodup) : l.Pairwise (· < ·) := by
  induction l with
  | nil => exact List.Pairwise.nil
  | cons a t ih =>
    rw [List.pairwise_cons] at h1 ⊢
    rw [List.nodup_cons] at h2
    refine ⟨?_, ih h1.2 h2.2⟩
    intro b hb
    rcases Nat.lt_or_ge a b with h | h
    · exact h
    · have hab : a = b := Nat.le_antisymm (h1.1 b hb) h
      exact absurd (hab ▸ hb) h2.1

theorem sorted_lt_sublist_of_bounds :
    ∀ (n s : Nat) (l : List Nat), l.Pairwise (· < ·) →
      (∀ x ∈ l, s ≤ x ∧ x < s + n) → l.Sublist (List.range' s n) := by
  intro n
  induction n with
  | zero =>
    intro s l _ hb
    cases l with
    | nil => simp
    | cons a t => exact absurd (hb a (List.mem_cons_self a t)) (by omega)
  | succ n ih =>
    intro s l hp hb
    cases l with
    | nil => simp
    | cons a t =>
      have hbds := hb a (List.mem_cons_self a t)
      rw [List.range'_succ]
      rw [List.pairwise_cons] at hp
      by_cases ha : a = s
      · subst ha
        apply List.Sublist.cons₂
        apply ih (a + 1) t hp.2
        intro x hx
        have hax := hp.1 x hx
        have hxb := hb x (List.mem_cons_of_mem a hx)
        omega
      · apply List.Sublist.cons
        apply ih (s + 1) (a :: t) (List.pairwise_cons.mpr hp)
        intro x hx
        rcases List.mem_cons.mp hx with h | h
        · subst h; omega
        · have hax := hp.1 x h
          have hxb := hb x (List.mem_cons_of_mem a h)
          omega

theorem pov_trace_ne_nil (e : Env) (idx : Nat) (display : Int)
    (t : Option Int) (mv : MustValidate) :
    (executePresentOrValidateDisplay e idx display t mv).2 ≠ [] := by
  simp only [executePresentOrValidateDisplay,
    executeSetExpectedPresentTimeInternal]
  repeat' split
  all_goals simp

/-- Claim C1: execute resets the command index to zero and dispatches every
    DisplayCommand in batch order, the i-th command at index i; no command's
    failure stops dispatch of later commands, so every command contributes its
    block to the trace; every error recorded inside block i carries index i,
    the recorded error indices are monotone over the batch and below the batch
    size, and their set, read in order, is a strictly increasing subsequence
    of the index range of the batch. -/
theorem execute_command_index_correlation (e : Env) (mv : MustValidate)
    (commands : List DisplayCommand) :
    execTrace e mv commands = (commandTraces e 0 mv commands).flatten ∧
    (commandTraces e 0 mv commands).length = commands.length ∧
    (∀ k : Nat, ∀ j ∈ errorIndices ((commandTraces e 0 mv commands).getD k []),
      j = k) ∧
    (∀ j ∈ errorIndices (execTrace e mv commands), j < commands.length) ∧
    (errorIndices (execTrace e mv commands)).Pairwise (· ≤ ·) ∧
    (errorIndices (execTrace e mv commands)).dedup.Sublist
      (List.range commands.length) := by
  have hmono := executeFrom_err_mono e commands 0 mv
  refine ⟨executeFrom_trace_eq e commands 0 mv,
    commandTraces_length e commands 0 mv, ?_, ?_, ?_, ?_⟩
  · intro k j hj
    have h := commandTraces_block_err e commands 0 mv k j hj
    omega
  · intro j hj
    have := hmono.1 j hj
    omega
  · exact hmono.2
  · rw [List.range_eq_range']
    apply sorted_lt_sublist_of_bounds
    · exact pairwise_lt_of_pairwise_le_nodup
        (List.Pairwise.sublist (List.dedup_sublist _) hmono.2)
        (List.nodup_dedup _)
    · intro x hx
      have := hmono.1 x (List.mem_dedup.mp hx)
      omega

/-- Claim C1, instantiated: a two-command batch whose validate operations fail
    records exactly the error indices zero and one, a strictly increasing
    subsequence of the range of the batch size. -/
theorem execute_command_index_correlation_witness :
    errorIndices (execTrace envValidateFail (fun _ => true)
      [{ display := 0, validateDisplay := true },
       { display := 1, validateDisplay := true }]) = [0, 1] ∧
    (errorIndices (execTrace envValidateFail (fun _ => true)
      [{ display := 0, validateDisplay := true },
       { display := 1, validateDisplay := true }])).dedup.Sublist
      (List.range 2) :=
  ⟨by decide,
    (execute_command_index_correlation envValidateFail (fun _ => true)
      [{ display := 0, validateDisplay := true },
       { display := 1, validateDisplay := true }]).2.2.2.2.2⟩

/-- Claim C2: with the must-validate flag clear and a succeeding hardware
    present, present-or-validate publishes exactly the outcome Presented and
    performs no hardware validate and no hardware accept-changes call. -/
theorem presentOrValidate_direct_present (e : Env) (idx : Nat) (display : Int)
    (expectedPresentTime : Option Int) (mv : MustValidate)
    (hmv : mv display = false)
    (hok : (e.hal.presentDisplay display).err = 0) :
    povResults (executePresentOrValidateDisplay e idx display
        expectedPresentTime mv).2 = [(display, PovResult.Presented)] ∧
    ((executePresentOrValidateDisplay e idx display expectedPresentTime
        mv).2.countP isHalValidate = 0) ∧
    ((executePresentOrValidateDisplay e idx display expectedPresentTime
        mv).2.countP isHalAccept = 0) := by
  unfold executePresentOrValidateDisplay
  simp only [hmv, Bool.false_eq_true, if_false, executePresentDisplay, hok]
  by_cases hf : (e.hal.presentDisplay display).presentFence ≠ -1 <;>
    simp [hf, povResults, povOf, executeSetExpectedPresentTimeInternal,
      isHalValidate, isHalAccept, List.countP_cons, List.countP_append]

/-- Claim C2, instantiated at the all-success environment. -/
theorem presentOrValidate_direct_present_witness :
    ((fun _ => false : MustValidate) 0 = false) ∧
    ((env0.hal.presentDisplay 0).err = 0) ∧
    povResults (executePresentOrValidateDisplay env0 0 0 none
      (fun _ => false)).2 = [(0, PovResult.Presented)] :=
  ⟨rfl, rfl,
    (presentOrValidate_direct_present env0 0 0 none (fun _ => false) rfl rfl).1⟩

/-- Claim C3: with the must-validate flag set: when validate reports no
    changes and the client-composition query succeeds with false, the
    hardware accept-changes and present are each invoked exactly once, accept
    strictly before present, and a succeeding present publishes Presented;
    when validate reports changes, or the query succeeds with true, the
    outcome Validated is published and no accept or present occurs. -/
theorem presentOrValidate_fallback_protocol (e : Env) (idx : Nat)
    (display : Int) (expectedPresentTime : Option Int) (mv : MustValidate)
    (hmv : mv display = true) :
    ((e.hal.validateDisplay display).err = HWC2_ERROR_NONE →
     e.hal.getHasClientComposition display = (HWC2_ERROR_NONE, false) →
      ((executePresentOrValidateDisplay e idx display expectedPresentTime
          mv).2.countP isHalAccept = 1 ∧
       (executePresentOrValidateDisplay e idx display expectedPresentTime
          mv).2.countP isHalPresent = 1 ∧
       (executePresentOrValidateDisplay e idx display expectedPresentTime
          mv).2.findIdx isHalAccept <
         (executePresentOrValidateDisplay e idx display expectedPresentTime
          mv).2.findIdx isHalPresent ∧
       ((e.hal.presentDisplay display).err = 0 →
        povResults (executePresentOrValidateDisplay e idx display
          expectedPresentTime mv).2 = [(display, PovResult.Presented)]))) ∧
    ((e.hal.validateDisplay display).err = HWC2_ERROR_HAS_CHANGES →
      (povResults (executePresentOrValidateDisplay e idx display
          expectedPresentTime mv).2 = [(display, PovResult.Validated)] ∧
       (executePresentOrValidateDisplay e idx display expectedPresentTime
          mv).2.countP isHalAccept = 0 ∧
       (executePresentOrValidateDisplay e idx display expectedPresentTime
          mv).2.countP isHalPresent = 0)) ∧
    ((e.hal.validateDisplay display).err = HWC2_ERROR_NONE →
     (e.hal.getHasClientComposition display).1 = HWC2_ERROR_NONE →
     (e.hal.getHasClientComposition display).2 = true →
      (povResults (executePresentOrValidateDisplay e idx display
          expectedPresentTime mv).2 = [(display, PovResult.Validated)] ∧
       (executePresentOrValidateDisplay e idx display expectedPresentTime
          mv).2.countP isHalAccept = 0 ∧
       (executePresentOrValidateDisplay e idx display expectedPresentTime
          mv).2.countP isHalPresent = 0)) := by
  refine ⟨?_, ?_, ?_⟩
  · intro hval hq
    unfold executePresentOrValidateDisplay
    by_cases hacc : e.hal.acceptDisplayChanges display = 0 <;>
      by_cases hp2 : (e.hal.presentDisplay display).err = 0 <;>
        by_cases hfe : (e.hal.presentDisplay display).presentFence = -1 <;>
          simp [hmv, EX_NOT_VALIDATED, executePresentDisplay, hp2, hfe,
            executeValidateDisplayInternal, hval, hq, HWC2_ERROR_NONE,
            HWC2_ERROR_HAS_CHANGES, executeSetExpectedPresentTimeInternal,
            executeAcceptDisplayChanges, hacc, povResults, povOf,
            isHalAccept, isHalPresent, List.countP_cons, List.countP_append,
            List.findIdx_cons]
  · intro hval
    unfold executePresentOrValidateDisplay
    simp [hmv, EX_NOT_VALIDATED, executeValidateDisplayInternal, hval,
      HWC2_ERROR_NONE, HWC2_ERROR_HAS_CHANGES,
      executeSetExpectedPresentTimeInternal, povResults, povOf,
      isHalAccept, isHalPresent, List.countP_cons, List.countP_append]
  · intro hval hq1 hq2
    unfold executePresentOrValidateDisplay
    simp [hmv, EX_NOT_VALIDATED, executeValidateDisplayInternal, hval,
      hq1, hq2, HWC2_ERROR_NONE, HWC2_ERROR_HAS_CHANGES,
      executeSetExpectedPresentTimeInternal, povResults, povOf,
      isHalAccept, isHalPresent, List.countP_cons, List.countP_append]

/-- Claim C3, instantiated at the all-success environment: the fallback path
    runs accept and present and publishes Presented. -/
theorem presentOrValidate_fallback_protocol_witness :
    ((fun _ => true : MustValidate) 0 = true) ∧
    povResults (executePresentOrValidateDisplay env0 0 0 none
      (fun _ => true)).2 = [(0, PovResult.Presented)] :=
  ⟨rfl,
    ((presentOrValidate_fallback_protocol env0 0 0 none (fun _ => true)
      rfl).1 rfl rfl).2.2.2 rfl⟩

/-- Claim C4, amended: validate treats exactly the statuses NONE and
    HAS_CHANGES as non-fatal, publishing the changed composition types and the
    display-request data with no error recorded; any other status records the
    status as an error against the current command index and publishes
    nothing; the must-validate flag is cleared unconditionally, on fatal
    statuses as well. -/
theorem validateDisplayInternal_status_handling (e : Env) (idx : Nat)
    (display : Int) (mv : MustValidate) :
    (executeValidateDisplayInternal e idx display mv).2.1 display = false ∧
    ((e.hal.validateDisplay display).err = HWC2_ERROR_NONE ∨
     (e.hal.validateDisplay display).err = HWC2_ERROR_HAS_CHANGES →
      (executeValidateDisplayInternal e idx display mv).2.2 =
        [Event.halValidateDisplay display,
         Event.setChangedCompositionTypes display
           (e.hal.validateDisplay display).changedLayers
           (e.hal.validateDisplay display).compositionTypes,
         Event.setDisplayRequests display
           (e.hal.validateDisplay display).displayRequestMask
           (e.hal.validateDisplay display).requestedLayers
           (e.hal.validateDisplay display).requestMasks] ∧
      errorIndices (executeValidateDisplayInternal e idx display mv).2.2 = []) ∧
    (¬((e.hal.validateDisplay display).err = HWC2_ERROR_NONE ∨
       (e.hal.validateDisplay display).err = HWC2_ERROR_HAS_CHANGES) →
      (executeValidateDisplayInternal e idx display mv).2.2 =
        [Event.halValidateDisplay display,
         Event.setError idx (e.hal.validateDisplay display).err]) := by
  unfold executeValidateDisplayInternal
  by_cases h : (e.hal.validateDisplay display).err = HWC2_ERROR_NONE ∨
      (e.hal.validateDisplay display).err = HWC2_ERROR_HAS_CHANGES <;>
    simp [h, errorIndices, errIdx]

/-- Claim C4, counterexample to the original claim: a hard validate error
    (status 2, neither NONE nor HAS_CHANGES) still clears the must-validate
    flag, which the original claim asserts stays set. -/
theorem validateDisplay_hard_error_clears_flag :
    ((envValidateFail.hal.validateDisplay 3).err = 2) ∧
    ((2 : Int) ≠ HWC2_ERROR_NONE ∧ (2 : Int) ≠ HWC2_ERROR_HAS_CHANGES) ∧
    ((fun _ => true : MustValidate) 3 = true) ∧
    ((executeValidateDisplayInternal envValidateFail 0 3 (fun _ => true)).2.1 3
      = false) :=
  ⟨rfl, by decide, rfl, by decide⟩

/-- Claim C4, amended claim instantiated: a hard validate error records the
    status against the current command index and publishes nothing. -/
theorem validateDisplayInternal_status_handling_witness :
    (¬((envValidateFail.hal.validateDisplay 0).err = HWC2_ERROR_NONE ∨
       (envValidateFail.hal.validateDisplay 0).err = HWC2_ERROR_HAS_CHANGES)) ∧
    (executeValidateDisplayInternal envValidateFail 0 0 (fun _ => true)).2.2 =
      [Event.halValidateDisplay 0, Event.setError 0 2] :=
  ⟨by decide,
    (validateDisplayInternal_status_handling envValidateFail 0 0
      (fun _ => true)).2.2 (by decide)⟩

/-- Claim C5: behaviour of the sideband-stream path at the failing input. A
    failed resolution (status 3) triggers the hardware call, which here
    succeeds, so no error at all is recorded; a successful resolution
    (status 0) skips the hardware call and records nothing. The record-error
    and skip-call behaviour the claim requires on resolution failure does not
    occur. -/
theorem setLayerSidebandStream_resolution_failure_behaviour :
    executeSetLayerSidebandStream envSideband 0 1 2 42 =
      [Event.halSetLayerSidebandStream 1 2 99] ∧
    executeSetLayerSidebandStream env0 0 1 2 42 = [] := by
  constructor <;> decide

/-- Claim C6: once present-or-validate has fallen back past the direct
    present attempt, a hard validate error, or a failing second present after
    accept-changes, leaves the command without any published protocol
    outcome. -/
theorem presentOrValidate_no_outcome_on_failure (e : Env) (idx : Nat)
    (display : Int) (expectedPresentTime : Option Int) (mv : MustValidate)
    (hfb : mv display = true ∨ (e.hal.presentDisplay display).err ≠ 0) :
    (((e.hal.validateDisplay display).err ≠ HWC2_ERROR_NONE ∧
      (e.hal.validateDisplay display).err ≠ HWC2_ERROR_HAS_CHANGES) →
      povResults (executePresentOrValidateDisplay e idx display
        expectedPresentTime mv).2 = []) ∧
    ((e.hal.validateDisplay display).err = HWC2_ERROR_NONE →
      ¬((e.hal.getHasClientComposition display).1 = HWC2_ERROR_NONE ∧
        (e.hal.getHasClientComposition display).2 = true) →
      (e.hal.presentDisplay display).err ≠ 0 →
      povResults (executePresentOrValidateDisplay e idx display
        expectedPresentTime mv).2 = []) := by
  constructor
  · intro hhard
    unfold executePresentOrValidateDisplay
    rcases hfb with hb | herr
    · simp [hb, EX_NOT_VALIDATED, executeValidateDisplayInternal, hhard.1,
        hhard.2, executeSetExpectedPresentTimeInternal, povResults, povOf,
        hhard]
    · rcases Bool.eq_false_or_eq_true (mv display) with hb | hb <;>
        simp [hb, EX_NOT_VALIDATED, executePresentDisplay, herr,
          executeValidateDisplayInternal, hhard.1, hhard.2,
          executeSetExpectedPresentTimeInternal, povResults, povOf, hhard]
  · intro hval hcc herr
    unfold executePresentOrValidateDisplay
    have hcc2 : ¬((e.hal.getHasClientComposition display).1 = 0 ∧
        (e.hal.getHasClientComposition display).2 = true) := by
      simpa [HWC2_ERROR_NONE] using hcc
    rcases Bool.eq_false_or_eq_true (mv display) with hb | hb <;>
      by_cases hacc : e.hal.acceptDisplayChanges display = 0 <;>
        simp [hb, EX_NOT_VALIDATED, executePresentDisplay, herr,
          executeValidateDisplayInternal, hval, HWC2_ERROR_NONE,
          HWC2_ERROR_HAS_CHANGES, executeSetExpectedPresentTimeInternal,
          executeAcceptDisplayChanges, hacc, hcc2, povResults, povOf]

/-- Claim C6, instantiated: a hard validate error after the skipped direct
    present leaves no published outcome. -/
theorem presentOrValidate_no_outcome_on_failure_witness :
    (((fun _ => true : MustValidate) 0 = true) ∨
      (envValidateFail.hal.presentDisplay 0).err ≠ 0) ∧
    povResults (executePresentOrValidateDisplay envValidateFail 0 0 none
      (fun _ => true)).2 = [] :=
  ⟨Or.inl rfl,
    (presentOrValidate_no_outcome_on_failure envValidateFail 0 0 none
      (fun _ => true) (Or.inl rfl)).1 ⟨by decide, by decide⟩⟩

/-- Claim C7: dispatching a DisplayCommand produces the events of the
    contained LayerCommands first, in list order, followed by the
    display-level fields in the fixed order color transform, client target,
    output buffer, brightness, validate, accept-changes, present,
    present-or-validate; each present field contributes a nonempty event
    block, so whichever of validate, present and present-or-validate are set
    are all applied, even several at once. -/
theorem dispatchDisplayCommand_field_order (e : Env) (idx : Nat)
    (mv : MustValidate) (command : DisplayCommand) :
    ((dispatchDisplayCommand e idx mv command).2 =
      (command.layers.map fun layerCmd =>
         dispatchLayerCommand e idx command.display layerCmd).flatten ++
      dispatchOpt command.colorTransformMatrix
        (fun v => executeSetColorTransform e idx command.display v) ++
      dispatchOpt command.clientTarget
        (fun v => executeSetClientTarget e idx command.display v) ++
      dispatchOpt command.virtualDisplayOutputBuffer
        (fun v => executeSetOutputBuffer e idx command.display v) ++
      dispatchOpt command.brightness
        (fun v => executeSetDisplayBrightness e idx command.display v) ++
      (if command.validateDisplay then
         (executeValidateDisplay e idx command.display
           command.expectedPresentTime mv).2
       else []) ++
      (if command.acceptDisplayChanges then
         executeAcceptDisplayChanges e idx command.display
       else []) ++
      (if command.presentDisplay then
         (executePresentDisplay e command.display).2
       else []) ++
      (if command.presentOrValidateDisplay then
         (executePresentOrValidateDisplay e idx command.display
           command.expectedPresentTime
           (if command.validateDisplay then
              (executeValidateDisplay e idx command.display
                command.expectedPresentTime mv).1
            else mv)).2
       else [])) ∧
    (command.validateDisplay = true →
      (executeValidateDisplay e idx command.display
        command.expectedPresentTime mv).2 ≠ []) ∧
    (command.acceptDisplayChanges = true →
      executeAcceptDisplayChanges e idx command.display ≠ []) ∧
    (command.presentDisplay = true →
      (executePresentDisplay e command.display).2 ≠ []) ∧
    (command.presentOrValidateDisplay = true →
      (executePresentOrValidateDisplay e idx command.display
        command.expectedPresentTime
        (if command.validateDisplay then
           (executeValidateDisplay e idx command.display
             command.expectedPresentTime mv).1
         else mv)).2 ≠ []) := by
  refine ⟨?_, ?_, ?_, ?_, ?_⟩
  · cases hv : command.validateDisplay <;>
      cases hq : command.presentOrValidateDisplay <;>
        simp [dispatchDisplayCommand, hv, hq]
  · intro h
    simp [executeValidateDisplay, executeSetExpectedPresentTimeInternal]
  · intro h
    simp [executeAcceptDisplayChanges]
  · intro h
    unfold executePresentDisplay
    by_cases hp : (e.hal.presentDisplay command.display).err = 0 <;> simp [hp]
  · intro h
    exact pov_trace_ne_nil e idx command.display command.expectedPresentTime _

/-- Claim C7, instantiated at a command with all protocol flags set: the
    validate block it contributes is nonempty. -/
theorem dispatchDisplayCommand_field_order_witness :
    (({ display := 0, validateDisplay := true, acceptDisplayChanges := true,
        presentDisplay := true, presentOrValidateDisplay := true } :
        DisplayCommand).validateDisplay = true) ∧
    (executeValidateDisplay env0 0 0 none (fun _ => false)).2 ≠ [] :=
  ⟨rfl,
    (dispatchDisplayCommand_field_order env0 0 (fun _ => false)
      { display := 0, validateDisplay := true, acceptDisplayChanges := true,
        presentDisplay := true, presentOrValidateDisplay := true }).2.1 rfl⟩

/-- Claim C8: a LayerCommand in which no optional field is populated
    dispatches to no hardware-abstraction call and records no error or result
    entry: its trace is empty. -/
theorem dispatchLayerCommand_no_fields_no_events (e : Env) (idx : Nat)
    (display : Int) (command : LayerCommand)
    (h : hasNoLayerFields command = true) :
    dispatchLayerCommand e idx display command = [] := by
  simp only [hasNoLayerFields, Bool.and_eq_true, Option.isNone_iff_eq_none] at h
  obtain ⟨⟨⟨⟨⟨⟨⟨⟨⟨⟨⟨⟨⟨⟨⟨⟨h1, h2⟩, h3⟩, h4⟩, h5⟩, h6⟩, h7⟩, h8⟩, h9⟩,
    h10⟩, h11⟩, h12⟩, h13⟩, h14⟩, h15⟩, h16⟩, h17⟩ := h
  simp [dispatchLayerCommand, h1, h2, h3, h4, h5, h6, h7, h8, h9, h10, h11,
    h12, h13, h14, h15, h16, h17, dispatchOpt]

/-- Claim C8, instantiated at the empty layer command. -/
theorem dispatchLayerCommand_no_fields_no_events_witness :
    hasNoLayerFields { layer := 0 } = true ∧
    dispatchLayerCommand env0 0 0 { layer := 0 } = [] :=
  ⟨by decide,
    dispatchLayerCommand_no_fields_no_events env0 0 0 { layer := 0 } (by decide)⟩

/-- Claim C9: when the plain present flag is set, present-or-validate is not,
    and the hardware present fails, the dispatcher discards the status:
    the present call itself records no error and no fences, and the dispatch
    trace differs from the same command without the flag only by the hardware
    present call, so the failure is invisible in the emitted results. -/
theorem presentDisplay_failure_invisible (e : Env) (idx : Nat)
    (mv : MustValidate) (command : DisplayCommand)
    (hp : command.presentDisplay = true)
    (hpov : command.presentOrValidateDisplay = false)
    (herr : (e.hal.presentDisplay command.display).err ≠ 0) :
    (executePresentDisplay e command.display).2 =
      [Event.halPresentDisplay command.display] ∧
    (dispatchDisplayCommand e idx mv command).2 =
      (dispatchDisplayCommand e idx mv
        { command with presentDisplay := false }).2
        ++ [Event.halPresentDisplay command.display] ∧
    (dispatchDisplayCommand e idx mv command).1 =
      (dispatchDisplayCommand e idx mv
        { command with presentDisplay := false }).1 := by
  have h1 : (executePresentDisplay e command.display).2 =
      [Event.halPresentDisplay command.display] := by
    unfold executePresentDisplay
    simp [herr]
  refine ⟨h1, ?_, ?_⟩ <;>
    simp [dispatchDisplayCommand, hp, hpov, h1]

/-- Claim C9, instantiated: with a failing present, the trace of a
    present-only command is the bare hardware present call. -/
theorem presentDisplay_failure_invisible_witness :
    (({ display := 0, presentDisplay := true } :
        DisplayCommand).presentDisplay = true) ∧
    (({ display := 0, presentDisplay := true } :
        DisplayCommand).presentOrValidateDisplay = false) ∧
    ((envPresentFail.hal.presentDisplay 0).err ≠ 0) ∧
    ((dispatchDisplayCommand envPresentFail 0 (fun _ => false)
        { display := 0, presentDisplay := true }).2 =
      (dispatchDisplayCommand envPresentFail 0 (fun _ => false)
        { display := 0, presentDisplay := false }).2
        ++ [Event.halPresentDisplay 0]) :=
  ⟨rfl, rfl, by decide,
    (presentDisplay_failure_invisible envPresentFail 0 (fun _ => false)
      { display := 0, presentDisplay := true } rfl rfl (by decide)).2.1⟩

/-- Claim C10: execute returns status zero for every batch, whatever
    per-command errors were recorded; failures are conveyed only through the
    drained result trace. -/
theorem execute_always_returns_zero (e : Env) (mv : MustValidate)
    (commands : List DisplayCommand) : (execute e mv commands).1 = 0 := rfl

end Hwc3
